import Mathlib

/-!
Shallow embedding of the circuit breaker in `src/cb/cb.go` (package `cb`)
of rednafi/circuit-breaker, together with theorems settling the spec's
claims about it.

Modelling conventions:
* `time.Time` and `time.Duration` are modelled as `Int` (nanoseconds); the
  current wall-clock time is passed to `Call` explicitly as `now`.
* Go's `error` is modelled as `Option String` (`none` = `nil`,
  `some s` = `errors.New(s)`); the `any` result as `Option α`
  (`none` = `nil`).
* The mutex is dropped: `Call` holds the lock for its whole duration
  (including the operation), so each `Call` is a sequential state
  transformer `circuitBreaker → circuitBreaker × result × error`.
* The caller-supplied operation `fn : func() (any, error)` is modelled by
  the time it takes to complete and the pair it then returns; the
  goroutine/`select` race in `runWithTimeout` is determinized: the
  operation's result is delivered iff it completes strictly before the
  deadline, otherwise the deadline fires and the timeout error is
  returned.
-/

namespace CB

/-- State constant `Closed = "closed"` of src/cb/cb.go. -/
def Closed : String := "closed"

/-- State constant `Open = "open"` of src/cb/cb.go. -/
def Open : String := "open"

/-- State constant `HalfOpen = "half-open"` of src/cb/cb.go. -/
def HalfOpen : String := "half-open"

/-- The `circuitBreaker` struct of src/cb/cb.go. The `Timeout` field is
modelled from the spec: the snapshot of cb.go under src is the earlier
three-parameter variant whose `runWithTimeout` hard-codes
`2*time.Second`, while the repository's README and `main.go` construct
the breaker with a fourth `timeout` argument; instantiating
`Timeout := 2000000000` recovers the src snapshot exactly. -/
structure circuitBreaker where
  FailureThreshold : Int
  FailureCount : Int
  RecoveryTime : Int
  State : String
  LastFailureTime : Int
  HalfOpenSuccessCount : Int
  HalfOpenMaxRequests : Int
  Timeout : Int
  deriving DecidableEq

/-- A caller-supplied operation `fn : func() (any, error)`: how long it
runs before returning, and the `(any, error)` pair it then returns. -/
structure Op (α : Type) where
  duration : Int
  result : Option α
  err : Option String

/-- The error string of `handleOpenState`'s rejection branch. -/
def openErr : String := "circuit is open. Blocking request."

/-- The error string of `runWithTimeout`'s deadline branch. -/
def timeoutErr : String := "request timed out"

/-- The error string of `Call`'s default (unknown-state) branch. -/
def unknownErr : String := "unknown circuit state"

/-- `NewCircuitBreaker`. Modelled from the spec: the current
four-parameter constructor (`NewCircuitBreaker(failureThreshold,
recoveryTime, halfOpenMaxRequests, timeout)`) is the one `main.go` and
the README call; the cb.go snapshot under src is the earlier
three-parameter variant that omits `timeout`. Fields not set by the
constructor get Go's zero values. -/
def NewCircuitBreaker (failureThreshold recoveryTime halfOpenMaxRequests timeout : Int) :
    circuitBreaker :=
  { FailureThreshold := failureThreshold
    FailureCount := 0
    RecoveryTime := recoveryTime
    State := Closed
    LastFailureTime := 0
    HalfOpenSuccessCount := 0
    HalfOpenMaxRequests := halfOpenMaxRequests
    Timeout := timeout }

/-- `runWithTimeout`: race the operation against the deadline. The
operation's result/error is returned verbatim iff it completes strictly
before the deadline; otherwise the context's deadline fires and the
timeout error is returned (the src snapshot hard-codes the deadline at
`2*time.Second`; here it is the breaker's `Timeout` field, see
`circuitBreaker`). -/
def runWithTimeout (cb : circuitBreaker) (fn : Op α) : Option α × Option String :=
  if fn.duration < cb.Timeout then (fn.result, fn.err) else (none, some timeoutErr)

/-- `recordFailure`: increment `FailureCount`, stamp `LastFailureTime`,
and trip to `Open` once the threshold is reached. -/
def recordFailure (cb : circuitBreaker) (now : Int) : circuitBreaker :=
  let cb1 := { cb with FailureCount := cb.FailureCount + 1, LastFailureTime := now }
  if cb1.FailureCount >= cb1.FailureThreshold then { cb1 with State := Open } else cb1

/-- `reset`: zero the failure count and close the circuit. (Note: the Go
code does not touch `HalfOpenSuccessCount` here.) -/
def reset (cb : circuitBreaker) : circuitBreaker :=
  { cb with FailureCount := 0, State := Closed }

/-- `handleClosedState`: run the operation; on error record a failure
and propagate the error, on success reset and return the result. -/
def handleClosedState (cb : circuitBreaker) (fn : Op α) (now : Int) :
    circuitBreaker × Option α × Option String :=
  let r := runWithTimeout cb fn
  match r.2 with
  | some e => (recordFailure cb now, none, some e)
  | none => (reset cb, r.1, none)

/-- `handleOpenState`: if the recovery period has expired, transition to
half-open (resetting both counters) and return `(nil, nil)`; otherwise
reject the call. -/
def handleOpenState (cb : circuitBreaker) (now : Int) :
    circuitBreaker × Option α × Option String :=
  if now - cb.LastFailureTime > cb.RecoveryTime then
    ({ cb with State := HalfOpen, FailureCount := 0, HalfOpenSuccessCount := 0 },
      none, none)
  else
    (cb, none, some openErr)

/-- `handleHalfOpenState`: run the operation; on error reopen the
circuit and stamp `LastFailureTime`; on success bump
`HalfOpenSuccessCount` and, once it reaches `HalfOpenMaxRequests`,
`reset`. -/
def handleHalfOpenState (cb : circuitBreaker) (fn : Op α) (now : Int) :
    circuitBreaker × Option α × Option String :=
  let r := runWithTimeout cb fn
  match r.2 with
  | some e => ({ cb with State := Open, LastFailureTime := now }, none, some e)
  | none =>
    let cb1 := { cb with HalfOpenSuccessCount := cb.HalfOpenSuccessCount + 1 }
    let cb2 :=
      if cb1.HalfOpenSuccessCount >= cb1.HalfOpenMaxRequests then reset cb1 else cb1
    (cb2, r.1, none)

/-- `Call`: dispatch on the current state string; the default branch
returns the unknown-state error. -/
def Call (cb : circuitBreaker) (fn : Op α) (now : Int) :
    circuitBreaker × Option α × Option String :=
  if cb.State = Closed then handleClosedState cb fn now
  else if cb.State = Open then handleOpenState cb now
  else if cb.State = HalfOpen then handleHalfOpenState cb fn now
  else (cb, none, some unknownErr)

/-- Iterate `Call` with the same operation and timestamp `n` times,
keeping only the breaker state (used to state properties of sequences of
consecutive calls). -/
def callN (cb : circuitBreaker) (fn : Op α) (now : Int) : Nat → circuitBreaker
  | 0 => cb
  | n + 1 => (Call (callN cb fn now n) fn now).1

/-- The breakers obtainable from the public constructor by mutating only
through `Call` (with arbitrary operations, payload types and
timestamps). -/
inductive Reachable : circuitBreaker → Prop where
  | new (ft rt m t : Int) : Reachable (NewCircuitBreaker ft rt m t)
  | step {cb : circuitBreaker} {α : Type} (fn : Op α) (now : Int) :
      Reachable cb → Reachable (Call cb fn now).1

/-- Sample operation for witnesses: succeeds immediately with value 42. -/
def opOkW : Op Int := { duration := 0, result := some 42, err := none }

/-- Sample operation for witnesses: fails immediately with error
"failure". -/
def opBadW : Op Int := { duration := 0, result := none, err := some "failure" }

/-- Sample operation for witnesses: would return 7 but takes 5 time
units to complete. -/
def opSlowW : Op Int := { duration := 5, result := some 7, err := none }

/-- Sample breaker for witnesses: closed, one failure already counted,
threshold 2. -/
def cbClosedW : circuitBreaker :=
  { FailureThreshold := 2, FailureCount := 1, RecoveryTime := 10, State := Closed,
    LastFailureTime := 0, HalfOpenSuccessCount := 0, HalfOpenMaxRequests := 2, Timeout := 2 }

/-- Sample breaker for witnesses: open since time 100, recovery time
10. -/
def cbOpenW : circuitBreaker :=
  { FailureThreshold := 2, FailureCount := 2, RecoveryTime := 10, State := Open,
    LastFailureTime := 100, HalfOpenSuccessCount := 0, HalfOpenMaxRequests := 2, Timeout := 2 }

/-- Sample breaker for witnesses: half-open with no successes yet,
needing 2 successes to close. -/
def cbHalfOpenW : circuitBreaker :=
  { FailureThreshold := 3, FailureCount := 0, RecoveryTime := 10, State := HalfOpen,
    LastFailureTime := 100, HalfOpenSuccessCount := 0, HalfOpenMaxRequests := 2, Timeout := 2 }

/-- Sample breaker for witnesses: freshly constructed, threshold 2,
timeout 2. -/
def cbFreshW : circuitBreaker := NewCircuitBreaker 2 10 2 2

/-- Sample breaker: half-open with success count 0 and
`HalfOpenMaxRequests = 1`, so a single success closes the circuit. -/
def cbOneMaxW : circuitBreaker :=
  { FailureThreshold := 3, FailureCount := 0, RecoveryTime := 10, State := HalfOpen,
    LastFailureTime := 0, HalfOpenSuccessCount := 0, HalfOpenMaxRequests := 1, Timeout := 2 }

/-- A successful call in the closed state returns the operation's result
and resets the breaker. -/
theorem call_closed_success {α : Type} (cb : circuitBreaker) (fn : Op α) (now : Int)
    (hs : cb.State = Closed) (hok : fn.err = none) (hd : fn.duration < cb.Timeout) :
    Call cb fn now = (reset cb, fn.result, (none : Option String)) := by
  simp [Call, hs, Open, Closed, handleClosedState, runWithTimeout, hd, hok]

/-- Iterating a successful operation from the closed state keeps
producing the reset breaker. -/
theorem callN_closed_success {α : Type} (cb : circuitBreaker) (fn : Op α) (now : Int)
    (hs : cb.State = Closed) (hok : fn.err = none) (hd : fn.duration < cb.Timeout) :
    ∀ n : Nat, callN cb fn now (n + 1) = reset cb := by
  intro n
  induction n with
  | zero =>
    show (Call (callN cb fn now 0) fn now).1 = reset cb
    rw [show callN cb fn now 0 = cb from rfl, call_closed_success cb fn now hs hok hd]
  | succ n ih =>
    show (Call (callN cb fn now (n + 1)) fn now).1 = reset cb
    rw [ih, call_closed_success (reset cb) fn now rfl hok hd]
    rfl

/-- A successful call in the half-open state bumps the success counter
and resets the breaker once it reaches the maximum. -/
theorem halfopen_success_call {α : Type} (cb : circuitBreaker) (fn : Op α) (now : Int)
    (hs : cb.State = HalfOpen) (hok : fn.err = none) (hd : fn.duration < cb.Timeout) :
    Call cb fn now =
      ((if cb.HalfOpenSuccessCount + 1 ≥ cb.HalfOpenMaxRequests
          then reset { cb with HalfOpenSuccessCount := cb.HalfOpenSuccessCount + 1 }
          else { cb with HalfOpenSuccessCount := cb.HalfOpenSuccessCount + 1 }),
        fn.result, (none : Option String)) := by
  simp [Call, hs, Open, Closed, HalfOpen, handleHalfOpenState, runWithTimeout, hd, hok]

/-- While fewer than `HalfOpenMaxRequests` successes have accumulated,
iterating a successful operation in the half-open state only bumps the
success counter. -/
theorem callN_halfopen_lt {α : Type} (cb : circuitBreaker) (fn : Op α) (now : Int) (m : Nat)
    (hs : cb.State = HalfOpen) (hc : cb.HalfOpenSuccessCount = 0)
    (hm : cb.HalfOpenMaxRequests = (m : Int))
    (hok : fn.err = none) (hd : fn.duration < cb.Timeout) :
    ∀ k : Nat, k < m → callN cb fn now k = { cb with HalfOpenSuccessCount := (k : Int) } := by
  intro k
  induction k with
  | zero =>
    intro _
    show cb = { cb with HalfOpenSuccessCount := ((0 : Nat) : Int) }
    rw [Nat.cast_zero, ← hc]
  | succ k ih =>
    intro hk
    have ihe := ih (Nat.lt_of_succ_lt hk)
    show (Call (callN cb fn now k) fn now).1 = _
    rw [ihe, halfopen_success_call { cb with HalfOpenSuccessCount := (k : Int) } fn now hs hok hd]
    have hnot : ¬ ((k : Int) + 1 ≥ cb.HalfOpenMaxRequests) := by
      rw [hm]
      omega
    simp [hnot]

/-- States of the three dispatch branches are preserved by `Call`: from
any of the three defined states, the post-call state is again one of the
three. -/
theorem call_state_cases {α : Type} (cb : circuitBreaker) (fn : Op α) (now : Int)
    (h : cb.State = Closed ∨ cb.State = Open ∨ cb.State = HalfOpen) :
    (Call cb fn now).1.State = Closed ∨ (Call cb fn now).1.State = Open ∨
      (Call cb fn now).1.State = HalfOpen := by
  rcases h with h | h | h
  · rcases he : (runWithTimeout cb fn).2 with _ | e
    · simp [Call, h, Open, Closed, HalfOpen, handleClosedState, he, reset]
    · by_cases ht : cb.FailureCount + 1 ≥ cb.FailureThreshold
      · simp [Call, h, Open, Closed, HalfOpen, handleClosedState, he, recordFailure, ht]
      · simp [Call, h, Open, Closed, HalfOpen, handleClosedState, he, recordFailure, ht]
  · by_cases ht : now - cb.LastFailureTime > cb.RecoveryTime
    · simp [Call, h, Open, Closed, HalfOpen, handleOpenState, ht]
    · simp [Call, h, Open, Closed, HalfOpen, handleOpenState, ht]
  · rcases he : (runWithTimeout cb fn).2 with _ | e
    · by_cases ht : cb.HalfOpenSuccessCount + 1 ≥ cb.HalfOpenMaxRequests
      · simp [Call, h, Open, Closed, HalfOpen, handleHalfOpenState, he, reset, ht]
      · simp [Call, h, Open, Closed, HalfOpen, handleHalfOpenState, he, reset, ht]
    · simp [Call, h, Open, Closed, HalfOpen, handleHalfOpenState, he]

/-- Claim C1, counterexample: with `halfOpenMaxRequests = 1`, a breaker
in the half-open state with success count 0 closes after one successful
call, but `HalfOpenSuccessCount` is NOT reset to 0 (the Go `reset`
function only zeroes `FailureCount` and sets the state), contradicting
the claim that both counters are reset on the HalfOpen-to-Closed
transition. -/
theorem c1_counterexample :
    ((Call cbOneMaxW opOkW 5).1.State = Closed) ∧
    ¬ ((Call cbOneMaxW opOkW 5).1.HalfOpenSuccessCount = 0) := by
  decide

/-- Claim C1 (amended): for a breaker entering the half-open state with
success count 0 and `HalfOpenMaxRequests = m > 0`, the first `m - 1`
consecutive successful calls stay half-open with the success count
tracking the number of successes, and the m-th successful call closes
the circuit with `FailureCount` reset to 0 — but `HalfOpenSuccessCount`
is left at `m`, not reset to 0. -/
theorem c1_halfopen_successes_close_amended {α : Type} (cb : circuitBreaker) (fn : Op α)
    (now : Int) (m : Nat)
    (hs : cb.State = HalfOpen) (hc : cb.HalfOpenSuccessCount = 0)
    (hm : cb.HalfOpenMaxRequests = (m : Int)) (hm0 : 0 < m)
    (hok : fn.err = none) (hd : fn.duration < cb.Timeout) :
    (∀ k : Nat, k < m → (callN cb fn now k).State = HalfOpen ∧
        (callN cb fn now k).HalfOpenSuccessCount = (k : Int)) ∧
    (callN cb fn now m).State = Closed ∧
    (callN cb fn now m).FailureCount = 0 ∧
    (callN cb fn now m).HalfOpenSuccessCount = (m : Int) := by
  constructor
  · intro k hk
    rw [callN_halfopen_lt cb fn now m hs hc hm hok hd k hk]
    exact ⟨hs, rfl⟩
  · obtain ⟨m0, rfl⟩ : ∃ m0, m = m0 + 1 := ⟨m - 1, by omega⟩
    have hyes : ((m0 : Int) + 1 ≥ cb.HalfOpenMaxRequests) := by
      rw [hm]
      push_cast
      omega
    have hstep : callN cb fn now (m0 + 1) =
        reset { cb with HalfOpenSuccessCount := (m0 : Int) + 1 } := by
      show (Call (callN cb fn now m0) fn now).1 = _
      rw [callN_halfopen_lt cb fn now (m0 + 1) hs hc hm hok hd m0 (by omega),
        halfopen_success_call { cb with HalfOpenSuccessCount := (m0 : Int) } fn now hs hok hd]
      simp [hyes]
    rw [hstep]
    refine ⟨rfl, rfl, ?_⟩
    show (m0 : Int) + 1 = ((m0 + 1 : Nat) : Int)
    push_cast
    ring

/-- Claim C1, witness for the amended theorem at a concrete input:
half-open breaker needing 2 successes; after one success it is still
half-open with count 1; after the second it is closed with
`FailureCount = 0` and `HalfOpenSuccessCount = 2`. -/
theorem c1_halfopen_successes_close_amended_witness :
    ((callN cbHalfOpenW opOkW 0 1).State = HalfOpen ∧
      (callN cbHalfOpenW opOkW 0 1).HalfOpenSuccessCount = ((1 : Nat) : Int)) ∧
    (callN cbHalfOpenW opOkW 0 2).State = Closed ∧
    (callN cbHalfOpenW opOkW 0 2).FailureCount = 0 ∧
    (callN cbHalfOpenW opOkW 0 2).HalfOpenSuccessCount = ((2 : Nat) : Int) := by
  have h := c1_halfopen_successes_close_amended cbHalfOpenW opOkW 0 2 rfl rfl (by decide)
    (by decide) rfl (by decide)
  exact ⟨h.1 1 (by decide), h.2⟩

/-- Claim C2 (spec-modelled): construction takes the four parameters
`failureThreshold`, `recoveryTime`, `halfOpenMaxRequests` and `timeout`,
each of which is stored in the breaker, and the configured timeout (not
a hard-coded default) bounds how long an operation may run: an operation
whose duration reaches the configured `t` is treated as failed (a
failure is recorded and the timeout error returned). -/
theorem c2_constructor_four_params_timeout (ft rt m t : Int) {α : Type} (fn : Op α)
    (now : Int) (hd : fn.duration ≥ t) :
    (NewCircuitBreaker ft rt m t).FailureThreshold = ft ∧
    (NewCircuitBreaker ft rt m t).RecoveryTime = rt ∧
    (NewCircuitBreaker ft rt m t).HalfOpenMaxRequests = m ∧
    (NewCircuitBreaker ft rt m t).Timeout = t ∧
    Call (NewCircuitBreaker ft rt m t) fn now =
      (recordFailure (NewCircuitBreaker ft rt m t) now, (none : Option α), some timeoutErr) := by
  refine ⟨rfl, rfl, rfl, rfl, ?_⟩
  have hto : (runWithTimeout (NewCircuitBreaker ft rt m t) fn).2 = some timeoutErr := by
    simp [runWithTimeout, NewCircuitBreaker, not_lt.mpr hd]
  simp [Call, NewCircuitBreaker, Closed, handleClosedState, hto]
  simp [runWithTimeout, NewCircuitBreaker, not_lt.mpr hd]

/-- Claim C2, witness: the breaker built with timeout 2 stores all four
parameters and times out an operation that takes 5 time units. -/
theorem c2_constructor_four_params_timeout_witness :
    (NewCircuitBreaker 3 5 2 2).FailureThreshold = 3 ∧
    (NewCircuitBreaker 3 5 2 2).RecoveryTime = 5 ∧
    (NewCircuitBreaker 3 5 2 2).HalfOpenMaxRequests = 2 ∧
    (NewCircuitBreaker 3 5 2 2).Timeout = 2 ∧
    Call (NewCircuitBreaker 3 5 2 2) opSlowW 0 =
      (recordFailure (NewCircuitBreaker 3 5 2 2) 0, (none : Option Int), some timeoutErr) :=
  c2_constructor_four_params_timeout 3 5 2 2 opSlowW 0 (by decide)

/-- Claim C3: in the open state, once more than `RecoveryTime` has
elapsed since `LastFailureTime`, `Call` transitions to half-open with
both counters reset and returns `(nil, nil)` without invoking the
operation (the result is the same for every operation `fn`); the
operation runs only on a subsequent call, whose result is then
delivered. -/
theorem c3_open_recovery_transition {α : Type} (cb : circuitBreaker) (fn : Op α)
    (now now2 : Int)
    (hs : cb.State = Open) (ht : now - cb.LastFailureTime > cb.RecoveryTime) :
    Call cb fn now =
      ({ cb with State := HalfOpen, FailureCount := 0, HalfOpenSuccessCount := 0 },
        (none : Option α), (none : Option String)) ∧
    (fn.err = none → fn.duration < cb.Timeout →
      (Call (Call cb fn now).1 fn now2).2.1 = fn.result) := by
  have h1 : Call cb fn now =
      ({ cb with State := HalfOpen, FailureCount := 0, HalfOpenSuccessCount := 0 },
        (none : Option α), (none : Option String)) := by
    simp [Call, handleOpenState, hs, Open, Closed, ht]
  refine ⟨h1, fun hok hd => ?_⟩
  rw [h1]
  simp [Call, handleHalfOpenState, runWithTimeout, Open, Closed, HalfOpen, hok, hd]

/-- Claim C3, witness: an open breaker (last failure at 100, recovery 10)
called at time 120 transitions to half-open returning `(nil, nil)`, and
the next call at 121 actually runs the operation. -/
theorem c3_open_recovery_transition_witness :
    Call cbOpenW opOkW 120 =
      ({ cbOpenW with State := HalfOpen, FailureCount := 0, HalfOpenSuccessCount := 0 },
        (none : Option Int), (none : Option String)) ∧
    (Call (Call cbOpenW opOkW 120).1 opOkW 121).2.1 = opOkW.result := by
  have h := c3_open_recovery_transition cbOpenW opOkW 120 121 rfl (by decide)
  exact ⟨h.1, h.2 rfl (by decide)⟩

/-- Claim C4: a call in the closed state whose operation fails or times
out (so `runWithTimeout` yields error `e`) returns `(nil, e)` with the
error unchanged, increments `FailureCount` by exactly 1, stamps
`LastFailureTime`, and trips to the open state exactly when the
incremented count reaches `FailureThreshold` (staying closed
otherwise). -/
theorem c4_closed_failure_increment {α : Type} (cb : circuitBreaker) (fn : Op α)
    (now : Int) (e : String)
    (hs : cb.State = Closed) (he : (runWithTimeout cb fn).2 = some e) :
    (Call cb fn now).2 = ((none : Option α), some e) ∧
    (Call cb fn now).1.FailureCount = cb.FailureCount + 1 ∧
    (Call cb fn now).1.LastFailureTime = now ∧
    (cb.FailureCount + 1 ≥ cb.FailureThreshold → (Call cb fn now).1.State = Open) ∧
    (cb.FailureCount + 1 < cb.FailureThreshold → (Call cb fn now).1.State = Closed) := by
  have hc : Call cb fn now = (recordFailure cb now, (none : Option α), some e) := by
    simp [Call, hs, Open, Closed, handleClosedState, he]
  rw [hc]
  by_cases h : cb.FailureCount + 1 ≥ cb.FailureThreshold
  · simp [recordFailure, h]
  · simp [recordFailure, h]
    exact fun _ => hs

/-- Claim C4, witness: a closed breaker with 1 failure and threshold 2,
on a failing operation, returns the original error "failure", reaches
count 2, stamps time 7, and trips to open. -/
theorem c4_closed_failure_increment_witness :
    (Call cbClosedW opBadW 7).2 = ((none : Option Int), some "failure") ∧
    (Call cbClosedW opBadW 7).1.FailureCount = 2 ∧
    (Call cbClosedW opBadW 7).1.LastFailureTime = 7 ∧
    (Call cbClosedW opBadW 7).1.State = Open := by
  have h := c4_closed_failure_increment cbClosedW opBadW 7 "failure" rfl (by decide)
  exact ⟨h.1, h.2.1, h.2.2.1, h.2.2.2.1 (by decide)⟩

/-- Claim C5: a call arriving while the breaker is open with at most
`RecoveryTime` elapsed since `LastFailureTime` is rejected with the
rejection error, the breaker is returned unchanged (so the state stays
open), and the result is the same for every operation `fn` — the wrapped
operation is never invoked. -/
theorem c5_open_rejection {α : Type} (cb : circuitBreaker) (fn : Op α) (now : Int)
    (hs : cb.State = Open) (ht : now - cb.LastFailureTime ≤ cb.RecoveryTime) :
    Call cb fn now = (cb, (none : Option α), some openErr) ∧
    (Call cb fn now).1.State = Open := by
  have hno : ¬ (now - cb.LastFailureTime > cb.RecoveryTime) := not_lt.mpr ht
  simp [Call, handleOpenState, hs, Open, Closed, hno]

/-- Claim C5, witness: the open breaker called at time 105 (5 elapsed of
a 10 recovery window) is rejected with the open-circuit error and left
unchanged. -/
theorem c5_open_rejection_witness :
    Call cbOpenW opOkW 105 = (cbOpenW, (none : Option Int), some openErr) ∧
    (Call cbOpenW opOkW 105).1.State = Open :=
  c5_open_rejection cbOpenW opOkW 105 rfl (by decide)

/-- Claim C6: a single failing or timed-out call in the half-open state
(so `runWithTimeout` yields error `e`) transitions immediately to open —
with no hypothesis on `HalfOpenMaxRequests` or on how many successes
have accumulated — stamps `LastFailureTime`, and returns `(nil, e)`. -/
theorem c6_halfopen_failure_reopens {α : Type} (cb : circuitBreaker) (fn : Op α)
    (now : Int) (e : String)
    (hs : cb.State = HalfOpen) (he : (runWithTimeout cb fn).2 = some e) :
    Call cb fn now =
      ({ cb with State := Open, LastFailureTime := now }, (none : Option α), some e) := by
  simp [Call, handleHalfOpenState, hs, Open, Closed, HalfOpen, he]

/-- Claim C6, witness: the half-open breaker, on a failing operation at
time 7, reopens with `LastFailureTime = 7` and returns the error. -/
theorem c6_halfopen_failure_reopens_witness :
    Call cbHalfOpenW opBadW 7 =
      ({ cbHalfOpenW with State := Open, LastFailureTime := 7 },
        (none : Option Int), some "failure") :=
  c6_halfopen_failure_reopens cbHalfOpenW opBadW 7 "failure" rfl (by decide)

/-- Claim C7: a successful call in the closed state returns the
operation's result with no error and resets `FailureCount` to 0; every
sequence of at least one consecutive successful call leaves the breaker
closed with `FailureCount = 0`; and a single failure (below threshold)
followed by a success leaves `FailureCount = 0` and the state closed. -/
theorem c7_closed_success_resets {α : Type} (cb : circuitBreaker) (fn g : Op α) (now : Int)
    (hs : cb.State = Closed) (hok : fn.err = none) (hd : fn.duration < cb.Timeout) :
    ((Call cb fn now).2 = (fn.result, (none : Option String)) ∧
      (Call cb fn now).1.FailureCount = 0 ∧ (Call cb fn now).1.State = Closed) ∧
    (∀ n : Nat, 1 ≤ n →
      (callN cb fn now n).State = Closed ∧ (callN cb fn now n).FailureCount = 0) ∧
    ((runWithTimeout cb g).2 ≠ none → cb.FailureCount + 1 < cb.FailureThreshold →
      (Call (Call cb g now).1 fn now).1.FailureCount = 0 ∧
      (Call (Call cb g now).1 fn now).1.State = Closed) := by
  have h1 := call_closed_success cb fn now hs hok hd
  refine ⟨by rw [h1]; exact ⟨rfl, rfl, rfl⟩, ?_, ?_⟩
  · intro n hn
    obtain ⟨n0, rfl⟩ : ∃ n0, n = n0 + 1 := ⟨n - 1, by omega⟩
    rw [callN_closed_success cb fn now hs hok hd n0]
    exact ⟨rfl, rfl⟩
  · intro hg hth
    obtain ⟨e, he⟩ := Option.ne_none_iff_exists'.mp hg
    have hcg : Call cb g now = (recordFailure cb now, (none : Option α), some e) := by
      simp [Call, hs, Open, Closed, handleClosedState, he]
    have hnot : ¬ (cb.FailureCount + 1 ≥ cb.FailureThreshold) := by omega
    have hrf : recordFailure cb now =
        { cb with FailureCount := cb.FailureCount + 1, LastFailureTime := now } := by
      simp [recordFailure, hnot]
    rw [hcg]
    show (Call (recordFailure cb now) fn now).1.FailureCount = 0 ∧
      (Call (recordFailure cb now) fn now).1.State = Closed
    rw [hrf, call_closed_success
      { cb with FailureCount := cb.FailureCount + 1, LastFailureTime := now } fn now hs hok hd]
    exact ⟨rfl, rfl⟩

/-- Claim C7, witness: a fresh breaker (threshold 2) on a succeeding
operation returns 42 with the counter at 0; three consecutive successes
leave it closed at 0; and one failure followed by a success is back to
count 0 and closed. -/
theorem c7_closed_success_resets_witness :
    ((Call cbFreshW opOkW 0).2 = (opOkW.result, (none : Option String)) ∧
      (Call cbFreshW opOkW 0).1.FailureCount = 0 ∧
      (Call cbFreshW opOkW 0).1.State = Closed) ∧
    ((callN cbFreshW opOkW 0 3).State = Closed ∧
      (callN cbFreshW opOkW 0 3).FailureCount = 0) ∧
    ((Call (Call cbFreshW opBadW 0).1 opOkW 0).1.FailureCount = 0 ∧
      (Call (Call cbFreshW opBadW 0).1 opOkW 0).1.State = Closed) := by
  have h := c7_closed_success_resets cbFreshW opOkW opBadW 0 rfl rfl (by decide)
  exact ⟨h.1, h.2.1 3 (by decide), h.2.2 (by decide) (by decide)⟩

/-- Claim C8: an operation that runs longer than the configured timeout
yields the timeout error, and the resulting breaker is identical to the
one produced by an operation that reports an error directly — the
timeout is treated as a failure for state-machine purposes in both the
closed and half-open states. -/
theorem c8_timeout_is_failure {α : Type} (cb : circuitBreaker) (fn g : Op α) (now : Int)
    (e : String)
    (hfn : cb.Timeout < fn.duration)
    (hg : g.err = some e) (hgd : g.duration < cb.Timeout)
    (hs : cb.State = Closed ∨ cb.State = HalfOpen) :
    (Call cb fn now).2 = ((none : Option α), some timeoutErr) ∧
    (Call cb fn now).1 = (Call cb g now).1 := by
  have hfto : (runWithTimeout cb fn) = ((none : Option α), some timeoutErr) := by
    simp [runWithTimeout, not_lt.mpr (le_of_lt hfn)]
  have hgto : (runWithTimeout cb g) = (g.result, some e) := by
    simp [runWithTimeout, hgd, hg]
  rcases hs with hs | hs
  · simp [Call, hs, Open, Closed, HalfOpen, handleClosedState, hfto, hgto]
  · simp [Call, hs, Open, Closed, HalfOpen, handleHalfOpenState, hfto, hgto]

/-- Claim C8, witness: on the fresh breaker (timeout 2), an operation
taking 5 units returns the timeout error and leaves the breaker exactly
as a directly failing operation would. -/
theorem c8_timeout_is_failure_witness :
    (Call cbFreshW opSlowW 0).2 = ((none : Option Int), some timeoutErr) ∧
    (Call cbFreshW opSlowW 0).1 = (Call cbFreshW opBadW 0).1 :=
  c8_timeout_is_failure cbFreshW opSlowW opBadW 0 "failure" (by decide) rfl (by decide)
    (Or.inl rfl)

/-- Claim C9: every breaker obtained from the public constructor by
mutating only through `Call` has its state field equal to one of the
three defined state strings, so the default (unknown-state) branch of
`Call`'s dispatch is never taken. -/
theorem c9_state_invariant (cb : circuitBreaker) (h : Reachable cb) :
    cb.State = Closed ∨ cb.State = Open ∨ cb.State = HalfOpen := by
  induction h with
  | new ft rt m t => exact Or.inl rfl
  | step fn now hr ih => exact call_state_cases _ fn now ih

/-- Claim C9, witness: the breaker obtained by one failing call on a
freshly constructed breaker is in one of the three defined states. -/
theorem c9_state_invariant_witness :
    (Call (NewCircuitBreaker 1 1 1 1) opBadW 0).1.State = Closed ∨
    (Call (NewCircuitBreaker 1 1 1 1) opBadW 0).1.State = Open ∨
    (Call (NewCircuitBreaker 1 1 1 1) opBadW 0).1.State = HalfOpen :=
  c9_state_invariant _ (Reachable.step opBadW 0 (Reachable.new 1 1 1 1))

/-- Claim C10: a rejected call in the open state (recovery window not
yet elapsed) leaves every breaker field unchanged: the failure count,
last failure time, half-open success count, state, and the three
configuration fields plus the timeout are identical before and after. -/
theorem c10_open_rejection_frame {α : Type} (cb : circuitBreaker) (fn : Op α) (now : Int)
    (hs : cb.State = Open) (ht : now - cb.LastFailureTime ≤ cb.RecoveryTime) :
    (Call cb fn now).1.FailureCount = cb.FailureCount ∧
    (Call cb fn now).1.LastFailureTime = cb.LastFailureTime ∧
    (Call cb fn now).1.HalfOpenSuccessCount = cb.HalfOpenSuccessCount ∧
    (Call cb fn now).1.State = cb.State ∧
    (Call cb fn now).1.FailureThreshold = cb.FailureThreshold ∧
    (Call cb fn now).1.RecoveryTime = cb.RecoveryTime ∧
    (Call cb fn now).1.HalfOpenMaxRequests = cb.HalfOpenMaxRequests ∧
    (Call cb fn now).1.Timeout = cb.Timeout := by
  have hno : ¬ (now - cb.LastFailureTime > cb.RecoveryTime) := not_lt.mpr ht
  simp [Call, handleOpenState, hs, Open, Closed, hno]

/-- Claim C10, witness: the open breaker rejected at time 104 keeps all
eight fields unchanged. -/
theorem c10_open_rejection_frame_witness :
    (Call cbOpenW opBadW 104).1.FailureCount = cbOpenW.FailureCount ∧
    (Call cbOpenW opBadW 104).1.LastFailureTime = cbOpenW.LastFailureTime ∧
    (Call cbOpenW opBadW 104).1.HalfOpenSuccessCount = cbOpenW.HalfOpenSuccessCount ∧
    (Call cbOpenW opBadW 104).1.State = cbOpenW.State ∧
    (Call cbOpenW opBadW 104).1.FailureThreshold = cbOpenW.FailureThreshold ∧
    (Call cbOpenW opBadW 104).1.RecoveryTime = cbOpenW.RecoveryTime ∧
    (Call cbOpenW opBadW 104).1.HalfOpenMaxRequests = cbOpenW.HalfOpenMaxRequests ∧
    (Call cbOpenW opBadW 104).1.Timeout = cbOpenW.Timeout :=
  c10_open_rejection_frame cbOpenW opBadW 104 rfl (by decide)

end CB
